import Mathlib

/-!
# Verification of the tax computation engine of `src/app.py`

Shallow embedding of the deterministic tax engine: `calculate_hra_exemption`,
`calculate_tax_detailed` and `compute_tax_breakdown`.  Money is modelled with
exact rationals (the Python source computes with numeric literals such as
`0.05`, written here as `5/100`), ages with integers, and Python's `int()`
truncation toward zero with `pyInt`.
-/

namespace TaxBuddy

/-- Python `int()` on a number: truncation toward zero. -/
def pyInt (q : ℚ) : ℤ :=
  if q < 0 then -(⌊-q⌋) else ⌊q⌋

/-- The two regime strings `"new"` / `"old"` accepted by `compute_tax_breakdown`. -/
inductive Regime where
  | new
  | old
deriving DecidableEq

/-- One sequential slab update from `compute_tax_breakdown`:
`if t > thr: tax += (t - thr) * rate; t = thr` acting on the state `(tax, t)`. -/
def slabStep (thr rate : ℚ) (s : ℚ × ℚ) : ℚ × ℚ :=
  if s.2 > thr then (s.1 + (s.2 - thr) * rate, thr) else s

/-- New-regime slab tax: the `regime == "new"` branch of `compute_tax_breakdown`,
with the five slab updates applied in source order (2.4M, 2M, 1.6M, 1.2M, 0.8M, 0.4M). -/
def slabTaxNew (income : ℚ) : ℚ :=
  (slabStep 400000 (5/100) (slabStep 800000 (10/100) (slabStep 1200000 (15/100)
    (slabStep 1600000 (20/100) (slabStep 2000000 (25/100)
      (slabStep 2400000 (30/100) (0, income))))))).1

/-- `limit = 500000 if age >= 80 else (300000 if age >= 60 else 250000)`. -/
def oldLimit (age : ℤ) : ℚ :=
  if age ≥ 80 then 500000 else if age ≥ 60 then 300000 else 250000

/-- Old-regime slab tax: the `else` branch of `compute_tax_breakdown`. -/
def slabTaxOld (income : ℚ) (age : ℤ) : ℚ :=
  (slabStep (oldLimit age) (5/100) (slabStep 500000 (20/100)
    (slabStep 1000000 (30/100) (0, income)))).1

/-- The slab tax selected by the regime argument of `compute_tax_breakdown`. -/
def slabTax (regime : Regime) (income : ℚ) (age : ℤ) : ℚ :=
  match regime with
  | .new => slabTaxNew income
  | .old => slabTaxOld income age

/-- The surcharge computation of `compute_tax_breakdown` (source lines 150-155),
applied to the slab tax `tax`. -/
def surchargeOf (regime : Regime) (income tax : ℚ) : ℚ :=
  if income > 5000000 then
    let rate0 : ℚ := if income ≤ 10000000 then 10/100 else 15/100
    let rate1 : ℚ := if income > 20000000 then 25/100 else rate0
    let rate2 : ℚ := if regime = Regime.old ∧ income > 50000000 then 37/100 else rate1
    tax * rate2
  else 0

/-- The dictionary returned by `compute_tax_breakdown`. -/
structure TaxBreakdown where
  base : ℤ
  surcharge : ℤ
  cess : ℤ
  total : ℤ

/-- `compute_tax_breakdown(income, age, regime)` from `src/app.py` lines 133-158. -/
def compute_tax_breakdown (income : ℚ) (age : ℤ) (regime : Regime) : TaxBreakdown :=
  let tax := slabTax regime income age
  let surcharge := surchargeOf regime income tax
  let cess := (tax + surcharge) * (4/100)
  { base := pyInt tax
    surcharge := pyInt surcharge
    cess := pyInt cess
    total := pyInt (tax + surcharge + cess) }

/-- `calculate_hra_exemption(basic_annual, rent_annual, metro)` from `src/app.py`
lines 69-72 (the source's only call site uses the default `metro=True`). -/
def calculate_hra_exemption (basic_annual rent_annual : ℚ) (metro : Bool) : ℤ :=
  let cond2 := rent_annual - (10/100) * basic_annual
  let cond3 := (if metro then (50 : ℚ)/100 else (40 : ℚ)/100) * basic_annual
  pyInt (max 0 (min cond2 cond3))

/-- The `deductions` sub-dictionary of the old-regime result. -/
structure OldDeductions where
  std : ℚ
  hra : ℤ
  inv80c : ℚ
  med80d : ℚ
  home_loan : ℚ
  nps : ℚ
  edu80e : ℚ
  don80g : ℚ
  sav80tta : ℚ
  other : ℚ

/-- The `assumptions` sub-dictionary of the old-regime result. -/
structure OldAssumptions where
  basic : ℚ
  rent_annual : ℚ

/-- The `"new"` entry of the result of `calculate_tax_detailed`. -/
structure RegimeNewResult where
  breakdown : TaxBreakdown
  net : ℚ

/-- The `"old"` entry of the result of `calculate_tax_detailed`. -/
structure RegimeOldResult where
  breakdown : TaxBreakdown
  net : ℚ
  deductions : OldDeductions
  assumptions : OldAssumptions

/-- The full result dictionary of `calculate_tax_detailed`. -/
structure TaxResult where
  new : RegimeNewResult
  old : RegimeOldResult

/-- `calculate_tax_detailed(age, salary, ..., custom_basic)` from `src/app.py`
lines 74-131 (Python's default `custom_basic=0` is passed explicitly here). -/
def calculate_tax_detailed (age : ℤ)
    (salary business_income rent_paid inv_80c med_80d home_loan nps edu_loan donations
      savings_int other_deductions custom_basic : ℚ) : TaxResult :=
  let std_deduction_new : ℚ := 75000
  let std_deduction_old : ℚ := 50000
  let basic : ℚ :=
    if custom_basic > 0 then
      if custom_basic < 100 then salary * (custom_basic / 100) else custom_basic
    else salary * (50/100)
  let final_rent : ℚ :=
    if rent_paid > 0 ∧ rent_paid < salary * (15/100) then rent_paid * 12 else rent_paid
  let hra_exemption : ℤ := calculate_hra_exemption basic final_rent true
  let limit_80tta : ℚ := if age ≥ 60 then 50000 else 10000
  let deduction_80tta := min savings_int limit_80tta
  let deduction_80e := edu_loan
  let deduction_80g := donations
  let deduction_home_loan := min home_loan 200000
  let deduction_nps := min nps 50000
  let taxable_business := business_income * (50/100)
  let gross := salary + taxable_business
  let deductions_old :=
    std_deduction_old + (hra_exemption : ℚ) + min inv_80c 150000 + med_80d +
      deduction_home_loan + deduction_nps + deduction_80e +
      deduction_80g + deduction_80tta + other_deductions
  let net_old := max 0 (gross - deductions_old)
  let net_new := max 0 (gross - std_deduction_new)
  let bd_new := compute_tax_breakdown net_new age Regime.new
  let bd_old := compute_tax_breakdown net_old age Regime.old
  { new := { breakdown := bd_new, net := net_new }
    old := { breakdown := bd_old
             net := net_old
             deductions := { std := std_deduction_old
                             hra := hra_exemption
                             inv80c := min inv_80c 150000
                             med80d := med_80d
                             home_loan := deduction_home_loan
                             nps := deduction_nps
                             edu80e := deduction_80e
                             don80g := deduction_80g
                             sav80tta := deduction_80tta
                             other := other_deductions }
             assumptions := { basic := basic, rent_annual := final_rent } } }

/-- Two successive calls of the engine with the same arguments, modelling the
spec's idempotence scenario: the engine reads nothing but its arguments. -/
def engineCalledTwice (age : ℤ)
    (salary business_income rent_paid inv_80c med_80d home_loan nps edu_loan donations
      savings_int other_deductions custom_basic : ℚ) : TaxResult × TaxResult :=
  (calculate_tax_detailed age salary business_income rent_paid inv_80c med_80d home_loan
      nps edu_loan donations savings_int other_deductions custom_basic,
    calculate_tax_detailed age salary business_income rent_paid inv_80c med_80d home_loan
      nps edu_loan donations savings_int other_deductions custom_basic)

/-- Modelled from the spec: the old-regime slab formula as stated in the claim,
"threshold 250,000 when age < 60, 300,000 when 60 ≤ age < 80, 500,000 when age ≥ 80,
with rate 5% on income between the threshold and 500,000, 20% between 500,000 and
1,000,000, and 30% above 1,000,000" (marginal-rate sum). -/
def oldSlabSpec (income : ℚ) (age : ℤ) : ℚ :=
  let thr : ℚ := if age < 60 then 250000 else if age < 80 then 300000 else 500000
  (5/100) * max (min income 500000 - thr) 0 +
    (20/100) * max (min income 1000000 - 500000) 0 +
    (30/100) * max (income - 1000000) 0

/-- Modelled from the spec: the surcharge rate ladder as stated in the claim,
"0% when income ≤ 5,000,000, 10% when ≤ 10,000,000, 15% when ≤ 20,000,000,
25% when > 20,000,000, and additionally 37% in the old regime when > 50,000,000". -/
def specSurchargeRate (regime : Regime) (income : ℚ) : ℚ :=
  if income ≤ 5000000 then 0
  else if income ≤ 10000000 then 10/100
  else if income ≤ 20000000 then 15/100
  else if regime = Regime.old ∧ income > 50000000 then 37/100
  else 25/100

/-! ## Helper lemmas -/

theorem pyInt_eq_floor {q : ℚ} (h : 0 ≤ q) : pyInt q = ⌊q⌋ := by
  unfold pyInt
  rw [if_neg (not_lt.mpr h)]

theorem pyInt_zero : pyInt 0 = 0 := by
  rw [pyInt_eq_floor le_rfl]
  exact Int.floor_zero

theorem pyInt_nonneg {q : ℚ} (h : 0 ≤ q) : 0 ≤ pyInt q := by
  rw [pyInt_eq_floor h]
  exact Int.floor_nonneg.mpr h

theorem pyInt_mono {q r : ℚ} (h : q ≤ r) : pyInt q ≤ pyInt r := by
  unfold pyInt
  split_ifs with hq hr hr
  · have h1 : ⌊-r⌋ ≤ ⌊-q⌋ := Int.floor_le_floor (by linarith)
    omega
  · have h1 : (0 : ℤ) ≤ ⌊-q⌋ := Int.floor_nonneg.mpr (by linarith)
    have h2 : (0 : ℤ) ≤ ⌊r⌋ := Int.floor_nonneg.mpr (by linarith [not_lt.mp hr])
    omega
  · exact absurd (lt_of_le_of_lt h hr) hq
  · exact Int.floor_le_floor h

theorem pyInt_eq_of_bounds {q : ℚ} {z : ℤ} (hz : 0 ≤ z) (h1 : (z : ℚ) ≤ q)
    (h2 : q < (z : ℚ) + 1) : pyInt q = z := by
  rw [pyInt_eq_floor (le_trans (by exact_mod_cast hz) h1)]
  rw [Int.floor_eq_iff]
  exact ⟨h1, h2⟩

theorem pyInt_pos {q : ℚ} (h : 1 ≤ q) : 0 < pyInt q := by
  rw [pyInt_eq_floor (by linarith)]
  have h2 : (1 : ℤ) ≤ ⌊q⌋ := Int.le_floor.mpr (by exact_mod_cast h)
  omega

theorem pyInt_add3_bounds {a b c : ℚ} (ha : 0 ≤ a) (hb : 0 ≤ b) (hc : 0 ≤ c) :
    pyInt a + pyInt b + pyInt c ≤ pyInt (a + b + c) ∧
      pyInt (a + b + c) ≤ pyInt a + pyInt b + pyInt c + 2 := by
  rw [pyInt_eq_floor ha, pyInt_eq_floor hb, pyInt_eq_floor hc,
    pyInt_eq_floor (by linarith : (0 : ℚ) ≤ a + b + c)]
  constructor
  · apply Int.le_floor.mpr
    push_cast
    have h1 := Int.floor_le a
    have h2 := Int.floor_le b
    have h3 := Int.floor_le c
    linarith
  · have h1 := Int.lt_floor_add_one a
    have h2 := Int.lt_floor_add_one b
    have h3 := Int.lt_floor_add_one c
    have h4 : a + b + c < ((⌊a⌋ + ⌊b⌋ + ⌊c⌋ + 2 + 1 : ℤ) : ℚ) := by push_cast; linarith
    have h5 := Int.floor_lt.mpr h4
    omega

theorem slabStep_fst (thr rate : ℚ) (s : ℚ × ℚ) :
    (slabStep thr rate s).1 = s.1 + max (s.2 - thr) 0 * rate := by
  unfold slabStep
  split_ifs with h
  · rw [max_eq_left (by linarith)]
  · rw [max_eq_right (by linarith)]
    ring

theorem slabStep_snd (thr rate : ℚ) (s : ℚ × ℚ) :
    (slabStep thr rate s).2 = min s.2 thr := by
  unfold slabStep
  split_ifs with h
  · exact (min_eq_right (le_of_lt h)).symm
  · exact (min_eq_left (not_lt.mp h)).symm

theorem slabStep_mono (thr rate : ℚ) (hr : 0 ≤ rate) {s s' : ℚ × ℚ}
    (h1 : s.1 ≤ s'.1) (h2 : s.2 ≤ s'.2) :
    (slabStep thr rate s).1 ≤ (slabStep thr rate s').1 ∧
      (slabStep thr rate s).2 ≤ (slabStep thr rate s').2 := by
  constructor
  · rw [slabStep_fst, slabStep_fst]
    exact add_le_add h1
      (mul_le_mul_of_nonneg_right (max_le_max (sub_le_sub_right h2 thr) le_rfl) hr)
  · rw [slabStep_snd, slabStep_snd]
    exact min_le_min h2 le_rfl

theorem slabStep_fst_nonneg {thr rate : ℚ} (hr : 0 ≤ rate) {s : ℚ × ℚ} (h : 0 ≤ s.1) :
    0 ≤ (slabStep thr rate s).1 := by
  rw [slabStep_fst]
  exact add_nonneg h (mul_nonneg (le_max_right _ _) hr)

theorem slabTaxNew_nonneg (income : ℚ) : 0 ≤ slabTaxNew income := by
  unfold slabTaxNew
  apply slabStep_fst_nonneg (by norm_num)
  apply slabStep_fst_nonneg (by norm_num)
  apply slabStep_fst_nonneg (by norm_num)
  apply slabStep_fst_nonneg (by norm_num)
  apply slabStep_fst_nonneg (by norm_num)
  apply slabStep_fst_nonneg (by norm_num)
  exact le_rfl

theorem slabTaxOld_nonneg (income : ℚ) (age : ℤ) : 0 ≤ slabTaxOld income age := by
  unfold slabTaxOld
  apply slabStep_fst_nonneg (by norm_num)
  apply slabStep_fst_nonneg (by norm_num)
  apply slabStep_fst_nonneg (by norm_num)
  exact le_rfl

theorem slabTax_nonneg (regime : Regime) (income : ℚ) (age : ℤ) :
    0 ≤ slabTax regime income age := by
  cases regime
  · exact slabTaxNew_nonneg income
  · exact slabTaxOld_nonneg income age

theorem slabTaxNew_mono {i j : ℚ} (h : i ≤ j) : slabTaxNew i ≤ slabTaxNew j := by
  unfold slabTaxNew
  have h0 := slabStep_mono 2400000 (30/100) (by norm_num)
    (show ((0 : ℚ), i).1 ≤ ((0 : ℚ), j).1 from le_rfl)
    (show ((0 : ℚ), i).2 ≤ ((0 : ℚ), j).2 from h)
  have h1 := slabStep_mono 2000000 (25/100) (by norm_num) h0.1 h0.2
  have h2 := slabStep_mono 1600000 (20/100) (by norm_num) h1.1 h1.2
  have h3 := slabStep_mono 1200000 (15/100) (by norm_num) h2.1 h2.2
  have h4 := slabStep_mono 800000 (10/100) (by norm_num) h3.1 h3.2
  have h5 := slabStep_mono 400000 (5/100) (by norm_num) h4.1 h4.2
  exact h5.1

theorem slabTaxNew_eq (income : ℚ) :
    slabTaxNew income =
      (5/100) * max (min income 800000 - 400000) 0 +
        (10/100) * max (min income 1200000 - 800000) 0 +
        (15/100) * max (min income 1600000 - 1200000) 0 +
        (20/100) * max (min income 2000000 - 1600000) 0 +
        (25/100) * max (min income 2400000 - 2000000) 0 +
        (30/100) * max (income - 2400000) 0 := by
  unfold slabTaxNew
  simp only [slabStep_fst, slabStep_snd]
  have e1 : min (min income 2400000) 2000000 = min income 2000000 := by
    rw [min_assoc, min_eq_right (by norm_num : (2000000 : ℚ) ≤ 2400000)]
  have e2 : min (min income 2000000) 1600000 = min income 1600000 := by
    rw [min_assoc, min_eq_right (by norm_num : (1600000 : ℚ) ≤ 2000000)]
  have e3 : min (min income 1600000) 1200000 = min income 1200000 := by
    rw [min_assoc, min_eq_right (by norm_num : (1200000 : ℚ) ≤ 1600000)]
  have e4 : min (min income 1200000) 800000 = min income 800000 := by
    rw [min_assoc, min_eq_right (by norm_num : (800000 : ℚ) ≤ 1200000)]
  rw [e1, e2, e3, e4]
  ring

theorem slabTaxOld_eq (income : ℚ) (age : ℤ) :
    slabTaxOld income age =
      (5/100) * max (min income 500000 - oldLimit age) 0 +
        (20/100) * max (min income 1000000 - 500000) 0 +
        (30/100) * max (income - 1000000) 0 := by
  unfold slabTaxOld
  simp only [slabStep_fst, slabStep_snd]
  have e1 : min (min income 1000000) 500000 = min income 500000 := by
    rw [min_assoc, min_eq_right (by norm_num : (500000 : ℚ) ≤ 1000000)]
  rw [e1]
  ring

theorem oldLimit_cases (age : ℤ) :
    oldLimit age = if age < 60 then (250000 : ℚ) else if age < 80 then 300000 else 500000 := by
  unfold oldLimit
  split_ifs <;> first | rfl | omega

theorem oldLimit_le (age : ℤ) : oldLimit age ≤ 500000 := by
  unfold oldLimit
  split_ifs <;> norm_num

theorem slabTaxNew_of_le {income : ℚ} (h : income ≤ 400000) : slabTaxNew income = 0 := by
  rw [slabTaxNew_eq]
  have m1 := min_le_left income 800000
  have m2 := min_le_left income 1200000
  have m3 := min_le_left income 1600000
  have m4 := min_le_left income 2000000
  have m5 := min_le_left income 2400000
  rw [max_eq_right (by linarith : min income 800000 - 400000 ≤ 0),
    max_eq_right (by linarith : min income 1200000 - 800000 ≤ 0),
    max_eq_right (by linarith : min income 1600000 - 1200000 ≤ 0),
    max_eq_right (by linarith : min income 2000000 - 1600000 ≤ 0),
    max_eq_right (by linarith : min income 2400000 - 2000000 ≤ 0),
    max_eq_right (by linarith : income - 2400000 ≤ 0)]
  ring

theorem slabTaxOld_of_le {income : ℚ} {age : ℤ} (h : income ≤ oldLimit age) :
    slabTaxOld income age = 0 := by
  have hlim := oldLimit_le age
  rw [slabTaxOld_eq]
  have m1 := min_le_left income 500000
  have m2 := min_le_left income 1000000
  rw [max_eq_right (by linarith : min income 500000 - oldLimit age ≤ 0),
    max_eq_right (by linarith : min income 1000000 - 500000 ≤ 0),
    max_eq_right (by linarith : income - 1000000 ≤ 0)]
  ring

theorem breakdown_base (income : ℚ) (age : ℤ) (r : Regime) :
    (compute_tax_breakdown income age r).base = pyInt (slabTax r income age) := rfl

theorem breakdown_surcharge (income : ℚ) (age : ℤ) (r : Regime) :
    (compute_tax_breakdown income age r).surcharge =
      pyInt (surchargeOf r income (slabTax r income age)) := rfl

theorem breakdown_cess (income : ℚ) (age : ℤ) (r : Regime) :
    (compute_tax_breakdown income age r).cess =
      pyInt ((slabTax r income age + surchargeOf r income (slabTax r income age)) * (4/100)) := rfl

theorem breakdown_total (income : ℚ) (age : ℤ) (r : Regime) :
    (compute_tax_breakdown income age r).total =
      pyInt (slabTax r income age + surchargeOf r income (slabTax r income age) +
        (slabTax r income age + surchargeOf r income (slabTax r income age)) * (4/100)) := rfl

theorem surchargeOf_eq (regime : Regime) (income tax : ℚ) :
    surchargeOf regime income tax = tax * specSurchargeRate regime income := by
  cases regime
  · have hne : ¬(Regime.new = Regime.old) := by decide
    simp only [surchargeOf, specSurchargeRate, hne, false_and, if_false]
    split_ifs <;> linarith
  · simp only [surchargeOf, specSurchargeRate, true_and]
    split_ifs <;> linarith

theorem specSurchargeRate_nonneg (regime : Regime) (income : ℚ) :
    0 ≤ specSurchargeRate regime income := by
  unfold specSurchargeRate
  split_ifs <;> norm_num

theorem specSurchargeRate_new_le (income : ℚ) :
    specSurchargeRate Regime.new income ≤ 25/100 := by
  have hne : ¬(Regime.new = Regime.old) := by decide
  simp only [specSurchargeRate, hne, false_and, if_false]
  split_ifs <;> norm_num

theorem specSurchargeRate_new_mono {i j : ℚ} (h : i ≤ j) :
    specSurchargeRate Regime.new i ≤ specSurchargeRate Regime.new j := by
  have hne : ¬(Regime.new = Regime.old) := by decide
  simp only [specSurchargeRate, hne, false_and, if_false]
  split_ifs <;> linarith

theorem surchargeOf_nonneg (regime : Regime) (income : ℚ) {tax : ℚ} (ht : 0 ≤ tax) :
    0 ≤ surchargeOf regime income tax := by
  rw [surchargeOf_eq]
  exact mul_nonneg ht (specSurchargeRate_nonneg regime income)

theorem surchargeOf_new_mono {i j t1 t2 : ℚ} (h0 : 0 ≤ t1) (ht : t1 ≤ t2) (hij : i ≤ j) :
    surchargeOf Regime.new i t1 ≤ surchargeOf Regime.new j t2 := by
  rw [surchargeOf_eq, surchargeOf_eq]
  exact mul_le_mul ht (specSurchargeRate_new_mono hij)
    (specSurchargeRate_nonneg Regime.new i) (le_trans h0 ht)

theorem breakdown_fields_nonneg (income : ℚ) (age : ℤ) (r : Regime) :
    0 ≤ (compute_tax_breakdown income age r).base ∧
      0 ≤ (compute_tax_breakdown income age r).surcharge ∧
      0 ≤ (compute_tax_breakdown income age r).cess ∧
      0 ≤ (compute_tax_breakdown income age r).total := by
  have htax := slabTax_nonneg r income age
  have hsur := surchargeOf_nonneg r income htax
  have hcess : 0 ≤ (slabTax r income age + surchargeOf r income (slabTax r income age)) * (4/100) :=
    mul_nonneg (by linarith) (by norm_num)
  exact ⟨by rw [breakdown_base]; exact pyInt_nonneg htax,
    by rw [breakdown_surcharge]; exact pyInt_nonneg hsur,
    by rw [breakdown_cess]; exact pyInt_nonneg hcess,
    by rw [breakdown_total]; exact pyInt_nonneg (by linarith)⟩

theorem breakdown_total_new_mono {i j : ℚ} (hij : i ≤ j) (age : ℤ) :
    (compute_tax_breakdown i age Regime.new).total ≤
      (compute_tax_breakdown j age Regime.new).total := by
  rw [breakdown_total, breakdown_total]
  apply pyInt_mono
  simp only [slabTax]
  have h1 : slabTaxNew i ≤ slabTaxNew j := slabTaxNew_mono hij
  have h0 : 0 ≤ slabTaxNew i := slabTaxNew_nonneg i
  have h2 : surchargeOf Regime.new i (slabTaxNew i) ≤ surchargeOf Regime.new j (slabTaxNew j) :=
    surchargeOf_new_mono h0 h1 hij
  linarith

/-! ## Claims -/

/-- C1 counterexample: the claimed §87A rebate does not exist in the code.  At
new-regime net taxable income 1,200,000 (any age, here 30) the base slab tax is
60,000, not 0. -/
theorem new_rebate_counterexample :
    (compute_tax_breakdown 1200000 30 Regime.new).base ≠ 0 := by
  have e : (compute_tax_breakdown 1200000 30 Regime.new).base = 60000 := by
    rw [breakdown_base]
    have et : slabTax Regime.new 1200000 30 = 60000 := by
      norm_num [slabTax, slabTaxNew, slabStep]
    rw [et]
    apply pyInt_eq_of_bounds (by norm_num) <;> norm_num
  omega

/-- C1 (amended): the engine applies no rebate in the new regime.  The
new-regime base slab tax is 0 whenever net taxable income is at most 400,000
(the lowest slab bound); at net taxable income 1,200,000 the base tax is 60,000
(strictly positive), and at 1,200,001 it is strictly positive, for every age. -/
theorem new_regime_base_boundaries (age : ℤ) (income : ℚ) (h : income ≤ 400000) :
    (compute_tax_breakdown income age Regime.new).base = 0 ∧
      (compute_tax_breakdown 1200000 age Regime.new).base = 60000 ∧
      0 < (compute_tax_breakdown 1200001 age Regime.new).base := by
  refine ⟨?_, ?_, ?_⟩
  · rw [breakdown_base]
    simp only [slabTax]
    rw [slabTaxNew_of_le h, pyInt_zero]
  · rw [breakdown_base]
    have et : slabTax Regime.new 1200000 age = 60000 := by
      norm_num [slabTax, slabTaxNew, slabStep]
    rw [et]
    apply pyInt_eq_of_bounds (by norm_num) <;> norm_num
  · rw [breakdown_base]
    simp only [slabTax]
    apply pyInt_pos
    norm_num [slabTaxNew, slabStep]

/-- C1 witness: the amended statement at age 30, income 300,000. -/
theorem new_regime_base_boundaries_witness :
    (300000 : ℚ) ≤ 400000 ∧ (compute_tax_breakdown 300000 30 Regime.new).base = 0 :=
  ⟨by norm_num, (new_regime_base_boundaries 30 300000 (by norm_num)).1⟩

/-- C2 counterexample: no old-regime rebate exists in the code.  At old-regime
net taxable income 500,000 and age 45 the base slab tax is 12,500, not 0. -/
theorem old_rebate_counterexample :
    (compute_tax_breakdown 500000 45 Regime.old).base ≠ 0 := by
  have e : (compute_tax_breakdown 500000 45 Regime.old).base = 12500 := by
    rw [breakdown_base]
    have et : slabTax Regime.old 500000 45 = 12500 := by
      norm_num [slabTax, slabTaxOld, slabStep, oldLimit]
    rw [et]
    apply pyInt_eq_of_bounds (by norm_num) <;> norm_num
  omega

/-- C2 (amended): the engine applies no rebate in the old regime.  The
old-regime base slab tax is 0 whenever net taxable income is at most the
age-dependent exemption limit (250,000 at age 45); at net taxable income
500,000 and age 45 the base tax is 12,500 (strictly positive), and at 500,001
it is strictly positive. -/
theorem old_regime_base_boundaries (age : ℤ) (income : ℚ) (h : income ≤ oldLimit age) :
    (compute_tax_breakdown income age Regime.old).base = 0 ∧
      (compute_tax_breakdown 500000 45 Regime.old).base = 12500 ∧
      0 < (compute_tax_breakdown 500001 45 Regime.old).base := by
  refine ⟨?_, ?_, ?_⟩
  · rw [breakdown_base]
    simp only [slabTax]
    rw [slabTaxOld_of_le h, pyInt_zero]
  · rw [breakdown_base]
    have et : slabTax Regime.old 500000 45 = 12500 := by
      norm_num [slabTax, slabTaxOld, slabStep, oldLimit]
    rw [et]
    apply pyInt_eq_of_bounds (by norm_num) <;> norm_num
  · rw [breakdown_base]
    simp only [slabTax]
    apply pyInt_pos
    norm_num [slabTaxOld, slabStep, oldLimit]

/-- C2 witness: the amended statement at age 45, income 200,000. -/
theorem old_regime_base_boundaries_witness :
    (200000 : ℚ) ≤ oldLimit 45 ∧ (compute_tax_breakdown 200000 45 Regime.old).base = 0 :=
  ⟨by norm_num [oldLimit], (old_regime_base_boundaries 45 200000 (by norm_num [oldLimit])).1⟩

/-- C3 counterexample: total tax is not monotone in salary under the old
regime.  With annual rent 150,000 and every other field zero, raising the
salary from 1,000,000 to 1,000,001 flips the monthly-rent heuristic
(`rent_paid < salary * 0.15`), multiplies the rent by 12, enlarges the HRA
exemption, and lowers the old-regime total tax from 85,800 to 54,600. -/
theorem old_total_monotonicity_counterexample :
    (calculate_tax_detailed 30 1000001 0 150000 0 0 0 0 0 0 0 0 0).old.breakdown.total <
      (calculate_tax_detailed 30 1000000 0 150000 0 0 0 0 0 0 0 0 0).old.breakdown.total := by
  have hraA : calculate_hra_exemption ((1000001 : ℚ) * (50/100)) 1800000 true = 250000 := by
    simp only [calculate_hra_exemption]
    apply pyInt_eq_of_bounds (by norm_num)
    · norm_num [min_def, max_def]
    · norm_num [min_def, max_def]
  have netA : (calculate_tax_detailed 30 1000001 0 150000 0 0 0 0 0 0 0 0 0).old.net =
      700001 := by
    show max 0 ((1000001 : ℚ) + (0 : ℚ) * (50/100) -
      ((50000 : ℚ) + ((calculate_hra_exemption
          (if (0 : ℚ) > 0 then if (0 : ℚ) < 100 then (1000001 : ℚ) * ((0 : ℚ) / 100) else (0 : ℚ)
            else (1000001 : ℚ) * (50/100))
          (if (150000 : ℚ) > 0 ∧ (150000 : ℚ) < (1000001 : ℚ) * (15/100) then (150000 : ℚ) * 12
            else (150000 : ℚ)) true : ℤ) : ℚ) +
        min (0 : ℚ) 150000 + (0 : ℚ) + min (0 : ℚ) 200000 + min (0 : ℚ) 50000 + (0 : ℚ) +
        (0 : ℚ) + min (0 : ℚ) (if (30 : ℤ) ≥ 60 then (50000 : ℚ) else 10000) + (0 : ℚ))) = 700001
    have h1 : (if (0 : ℚ) > 0 then
        if (0 : ℚ) < 100 then (1000001 : ℚ) * ((0 : ℚ) / 100) else (0 : ℚ)
        else (1000001 : ℚ) * (50/100)) = 1000001 * (50/100) := by norm_num
    have h2 : (if (150000 : ℚ) > 0 ∧ (150000 : ℚ) < (1000001 : ℚ) * (15/100) then
        (150000 : ℚ) * 12 else (150000 : ℚ)) = 1800000 := by norm_num
    rw [h1, h2, hraA]
    norm_num [min_def, max_def]
  have bdA : (calculate_tax_detailed 30 1000001 0 150000 0 0 0 0 0 0 0 0 0).old.breakdown =
      compute_tax_breakdown
        ((calculate_tax_detailed 30 1000001 0 150000 0 0 0 0 0 0 0 0 0).old.net)
        30 Regime.old := rfl
  have taxA : slabTax Regime.old 700001 30 = 262501/5 := by
    norm_num [slabTax, slabTaxOld, slabStep, oldLimit]
  have surA : surchargeOf Regime.old 700001 (slabTax Regime.old 700001 30) = 0 := by
    unfold surchargeOf
    rw [if_neg (by norm_num)]
  have totalA : (calculate_tax_detailed 30 1000001 0 150000 0 0 0 0 0 0 0 0
      0).old.breakdown.total = 54600 := by
    rw [bdA, netA, breakdown_total, surA, taxA]
    apply pyInt_eq_of_bounds (by norm_num) <;> norm_num
  have hraB : calculate_hra_exemption ((1000000 : ℚ) * (50/100)) 150000 true = 100000 := by
    simp only [calculate_hra_exemption]
    apply pyInt_eq_of_bounds (by norm_num)
    · norm_num [min_def, max_def]
    · norm_num [min_def, max_def]
  have netB : (calculate_tax_detailed 30 1000000 0 150000 0 0 0 0 0 0 0 0 0).old.net =
      850000 := by
    show max 0 ((1000000 : ℚ) + (0 : ℚ) * (50/100) -
      ((50000 : ℚ) + ((calculate_hra_exemption
          (if (0 : ℚ) > 0 then if (0 : ℚ) < 100 then (1000000 : ℚ) * ((0 : ℚ) / 100) else (0 : ℚ)
            else (1000000 : ℚ) * (50/100))
          (if (150000 : ℚ) > 0 ∧ (150000 : ℚ) < (1000000 : ℚ) * (15/100) then (150000 : ℚ) * 12
            else (150000 : ℚ)) true : ℤ) : ℚ) +
        min (0 : ℚ) 150000 + (0 : ℚ) + min (0 : ℚ) 200000 + min (0 : ℚ) 50000 + (0 : ℚ) +
        (0 : ℚ) + min (0 : ℚ) (if (30 : ℤ) ≥ 60 then (50000 : ℚ) else 10000) + (0 : ℚ))) = 850000
    have h1 : (if (0 : ℚ) > 0 then
        if (0 : ℚ) < 100 then (1000000 : ℚ) * ((0 : ℚ) / 100) else (0 : ℚ)
        else (1000000 : ℚ) * (50/100)) = 1000000 * (50/100) := by norm_num
    have h2 : (if (150000 : ℚ) > 0 ∧ (150000 : ℚ) < (1000000 : ℚ) * (15/100) then
        (150000 : ℚ) * 12 else (150000 : ℚ)) = 150000 := by norm_num
    rw [h1, h2, hraB]
    norm_num [min_def, max_def]
  have bdB : (calculate_tax_detailed 30 1000000 0 150000 0 0 0 0 0 0 0 0 0).old.breakdown =
      compute_tax_breakdown
        ((calculate_tax_detailed 30 1000000 0 150000 0 0 0 0 0 0 0 0 0).old.net)
        30 Regime.old := rfl
  have taxB : slabTax Regime.old 850000 30 = 82500 := by
    norm_num [slabTax, slabTaxOld, slabStep, oldLimit]
  have surB : surchargeOf Regime.old 850000 (slabTax Regime.old 850000 30) = 0 := by
    unfold surchargeOf
    rw [if_neg (by norm_num)]
  have totalB : (calculate_tax_detailed 30 1000000 0 150000 0 0 0 0 0 0 0 0
      0).old.breakdown.total = 85800 := by
    rw [bdB, netB, breakdown_total, surB, taxB]
    apply pyInt_eq_of_bounds (by norm_num) <;> norm_num
  rw [totalA, totalB]
  norm_num

/-- C3 (amended): increasing `salary` while holding every other field fixed
never decreases the total tax under the *new* regime (the old regime is not
monotone, see the counterexample). -/
theorem new_total_monotone_in_salary (age : ℤ)
    (business_income rent_paid inv_80c med_80d home_loan nps edu_loan donations savings_int
      other_deductions custom_basic s1 s2 : ℚ) (h : s1 ≤ s2) :
    (calculate_tax_detailed age s1 business_income rent_paid inv_80c med_80d home_loan nps
        edu_loan donations savings_int other_deductions custom_basic).new.breakdown.total ≤
      (calculate_tax_detailed age s2 business_income rent_paid inv_80c med_80d home_loan nps
        edu_loan donations savings_int other_deductions custom_basic).new.breakdown.total := by
  have e1 : (calculate_tax_detailed age s1 business_income rent_paid inv_80c med_80d home_loan
      nps edu_loan donations savings_int other_deductions custom_basic).new.breakdown =
      compute_tax_breakdown (max 0 (s1 + business_income * (50/100) - 75000)) age Regime.new := rfl
  have e2 : (calculate_tax_detailed age s2 business_income rent_paid inv_80c med_80d home_loan
      nps edu_loan donations savings_int other_deductions custom_basic).new.breakdown =
      compute_tax_breakdown (max 0 (s2 + business_income * (50/100) - 75000)) age Regime.new := rfl
  rw [e1, e2]
  exact breakdown_total_new_mono (max_le_max le_rfl (by linarith)) age

/-- C3 witness: the amended monotonicity at salaries 500,000 ≤ 900,000. -/
theorem new_total_monotone_in_salary_witness :
    (calculate_tax_detailed 30 500000 0 0 0 0 0 0 0 0 0 0 0).new.breakdown.total ≤
      (calculate_tax_detailed 30 900000 0 0 0 0 0 0 0 0 0 0 0).new.breakdown.total :=
  new_total_monotone_in_salary 30 0 0 0 0 0 0 0 0 0 0 0 500000 900000 (by norm_num)

/-- C4 counterexample: a `custom_basic` override of exactly 100 is *not*
interpreted as 100% of salary.  With salary 1,000,000 and override 100 the
engine uses the absolute amount 100 as the basic salary, not 1,000,000. -/
theorem custom_basic_100_counterexample :
    (calculate_tax_detailed 30 1000000 0 0 0 0 0 0 0 0 0 0
        100).old.assumptions.basic ≠ 1000000 := by
  have e : (calculate_tax_detailed 30 1000000 0 0 0 0 0 0 0 0 0 0
      100).old.assumptions.basic =
      if (100 : ℚ) > 0 then
        if (100 : ℚ) < 100 then (1000000 : ℚ) * ((100 : ℚ) / 100) else (100 : ℚ)
      else (1000000 : ℚ) * (50/100) := rfl
  rw [e]
  norm_num

/-- C4 (amended): a positive `custom_basic` strictly below 100 is interpreted
as a percentage of salary (`basic = salary * custom_basic / 100`); a value of
100 or more is used as an absolute basic-salary amount (so an override of
exactly 100 yields `basic = 100`, not `basic = salary`). -/
theorem custom_basic_interpretation (age : ℤ)
    (salary business_income rent_paid inv_80c med_80d home_loan nps edu_loan donations
      savings_int other_deductions custom_basic : ℚ) (hpos : 0 < custom_basic) :
    (custom_basic < 100 →
        (calculate_tax_detailed age salary business_income rent_paid inv_80c med_80d home_loan
            nps edu_loan donations savings_int other_deductions
            custom_basic).old.assumptions.basic = salary * (custom_basic / 100)) ∧
      (100 ≤ custom_basic →
        (calculate_tax_detailed age salary business_income rent_paid inv_80c med_80d home_loan
            nps edu_loan donations savings_int other_deductions
            custom_basic).old.assumptions.basic = custom_basic) := by
  have e : (calculate_tax_detailed age salary business_income rent_paid inv_80c med_80d
      home_loan nps edu_loan donations savings_int other_deductions
      custom_basic).old.assumptions.basic =
      if custom_basic > 0 then
        if custom_basic < 100 then salary * (custom_basic / 100) else custom_basic
      else salary * (50/100) := rfl
  rw [e, if_pos hpos]
  constructor
  · intro hlt
    rw [if_pos hlt]
  · intro hge
    rw [if_neg (not_lt.mpr hge)]

/-- C4 witness: override exactly 100 with salary 1,000,000 gives basic 100. -/
theorem custom_basic_interpretation_witness :
    (calculate_tax_detailed 30 1000000 0 0 0 0 0 0 0 0 0 0
        100).old.assumptions.basic = 100 :=
  (custom_basic_interpretation 30 1000000 0 0 0 0 0 0 0 0 0 0 100 (by norm_num)).2
    (by norm_num)

/-- C5 counterexample: the truncated `total` field does not always equal the
sum of the truncated `base`, `surcharge` and `cess` fields.  At old-regime
income 50,000,013 (age 45) the fields are 14,812,503 + 5,480,626 + 811,725 =
21,104,854 while `total` is 21,104,855, because `total` truncates the exact
sum, whose fractional parts add up past 1. -/
theorem total_field_sum_counterexample :
    (compute_tax_breakdown 50000013 45 Regime.old).base +
        (compute_tax_breakdown 50000013 45 Regime.old).surcharge +
        (compute_tax_breakdown 50000013 45 Regime.old).cess ≠
      (compute_tax_breakdown 50000013 45 Regime.old).total := by
  have etax : slabTax Regime.old 50000013 45 = 148125039/10 := by
    norm_num [slabTax, slabTaxOld, slabStep, oldLimit]
  have esur : surchargeOf Regime.old 50000013 ((148125039 : ℚ)/10) = 5480626443/1000 := by
    simp only [surchargeOf]
    norm_num
  have eb : (compute_tax_breakdown 50000013 45 Regime.old).base = 14812503 := by
    rw [breakdown_base, etax]
    apply pyInt_eq_of_bounds (by norm_num) <;> norm_num
  have es : (compute_tax_breakdown 50000013 45 Regime.old).surcharge = 5480626 := by
    rw [breakdown_surcharge, etax, esur]
    apply pyInt_eq_of_bounds (by norm_num) <;> norm_num
  have ec : (compute_tax_breakdown 50000013 45 Regime.old).cess = 811725 := by
    rw [breakdown_cess, etax, esur]
    apply pyInt_eq_of_bounds (by norm_num) <;> norm_num
  have et : (compute_tax_breakdown 50000013 45 Regime.old).total = 21104855 := by
    rw [breakdown_total, etax, esur]
    apply pyInt_eq_of_bounds (by norm_num) <;> norm_num
  rw [eb, es, ec, et]
  norm_num

/-- C5 (amended): `total` is the truncation of the exact (untruncated) sum
`tax + surcharge + cess`; on the truncated output fields this gives
`base + surcharge + cess ≤ total ≤ base + surcharge + cess + 2` for every
non-negative income, age and regime, rather than exact equality. -/
theorem total_field_decomposition (income : ℚ) (age : ℤ) (regime : Regime)
    (_hi : 0 ≤ income) :
    (compute_tax_breakdown income age regime).base +
          (compute_tax_breakdown income age regime).surcharge +
          (compute_tax_breakdown income age regime).cess ≤
        (compute_tax_breakdown income age regime).total ∧
      (compute_tax_breakdown income age regime).total ≤
        (compute_tax_breakdown income age regime).base +
          (compute_tax_breakdown income age regime).surcharge +
          (compute_tax_breakdown income age regime).cess + 2 := by
  have htax := slabTax_nonneg regime income age
  have hsur := surchargeOf_nonneg regime income htax
  have hcess : 0 ≤ (slabTax regime income age +
      surchargeOf regime income (slabTax regime income age)) * (4/100) :=
    mul_nonneg (by linarith) (by norm_num)
  rw [breakdown_base, breakdown_surcharge, breakdown_cess, breakdown_total]
  exact pyInt_add3_bounds htax hsur hcess

/-- C5 witness: the amended bounds at income 950,000, age 65, old regime. -/
theorem total_field_decomposition_witness :
    (compute_tax_breakdown 950000 65 Regime.old).base +
        (compute_tax_breakdown 950000 65 Regime.old).surcharge +
        (compute_tax_breakdown 950000 65 Regime.old).cess ≤
      (compute_tax_breakdown 950000 65 Regime.old).total :=
  (total_field_decomposition 950000 65 Regime.old (by norm_num)).1

/-- C6: the old-regime slab tax is the marginal-rate sum with the
age-dependent exemption threshold (250,000 for age < 60, 300,000 for
60 ≤ age < 80, 500,000 for age ≥ 80; 5% between the threshold and 500,000,
20% between 500,000 and 1,000,000, 30% above 1,000,000), for every income and
age; the `base` field is its truncation. -/
theorem old_slab_marginal_formula (income : ℚ) (age : ℤ) :
    slabTaxOld income age = oldSlabSpec income age ∧
      (compute_tax_breakdown income age Regime.old).base = pyInt (oldSlabSpec income age) := by
  have h : slabTaxOld income age = oldSlabSpec income age := by
    rw [slabTaxOld_eq, oldLimit_cases]
    simp only [oldSlabSpec]
  refine ⟨h, ?_⟩
  rw [breakdown_base]
  simp only [slabTax]
  rw [h]

/-- C7: the surcharge is the slab tax times the rate ladder determined by net
taxable income (0% up to 5,000,000, 10% up to 10,000,000, 15% up to
20,000,000, 25% above, and 37% in the old regime above 50,000,000); the
new-regime rate never exceeds 25%; at income exactly 5,000,000 the surcharge
field is 0; at 5,000,001 the surcharge is the 10% rate and is positive
whenever the slab tax is positive. -/
theorem surcharge_rate_spec (income : ℚ) (age : ℤ) (regime : Regime) :
    surchargeOf regime income (slabTax regime income age) =
        slabTax regime income age * specSurchargeRate regime income ∧
      specSurchargeRate Regime.new income ≤ 25/100 ∧
      (compute_tax_breakdown 5000000 age regime).surcharge = 0 ∧
      (0 < slabTax regime 5000001 age →
        surchargeOf regime 5000001 (slabTax regime 5000001 age) =
            slabTax regime 5000001 age * (10/100) ∧
          0 < surchargeOf regime 5000001 (slabTax regime 5000001 age)) := by
  refine ⟨surchargeOf_eq regime income (slabTax regime income age),
    specSurchargeRate_new_le income, ?_, ?_⟩
  · rw [breakdown_surcharge]
    have h0 : surchargeOf regime 5000000 (slabTax regime 5000000 age) = 0 := by
      unfold surchargeOf
      rw [if_neg (by norm_num)]
    rw [h0, pyInt_zero]
  · intro h
    have hrate : specSurchargeRate regime 5000001 = 10/100 := by
      unfold specSurchargeRate
      rw [if_neg (by norm_num), if_pos (by norm_num)]
    refine ⟨?_, ?_⟩
    · rw [surchargeOf_eq, hrate]
    · rw [surchargeOf_eq, hrate]
      exact mul_pos h (by norm_num)

/-- C7 witness: at income 5,000,001 (new regime, age 30) the slab tax is
positive and so is the surcharge. -/
theorem surcharge_rate_spec_witness :
    0 < surchargeOf Regime.new 5000001 (slabTax Regime.new 5000001 30) :=
  ((surcharge_rate_spec 7000000 30 Regime.new).2.2.2
    (by norm_num [slabTax, slabTaxNew, slabStep])).2

/-- C8: with all monetary inputs non-negative, every monetary value the engine
produces is non-negative: both net taxable incomes, the HRA exemption, and
base, surcharge, cess and total of both regimes. -/
theorem engine_values_nonneg (age : ℤ)
    (salary business_income rent_paid inv_80c med_80d home_loan nps edu_loan donations
      savings_int other_deductions custom_basic : ℚ)
    (_h1 : 0 ≤ salary) (_h2 : 0 ≤ business_income) (_h3 : 0 ≤ rent_paid) (_h4 : 0 ≤ inv_80c)
    (_h5 : 0 ≤ med_80d) (_h6 : 0 ≤ home_loan) (_h7 : 0 ≤ nps) (_h8 : 0 ≤ edu_loan)
    (_h9 : 0 ≤ donations) (_h10 : 0 ≤ savings_int) (_h11 : 0 ≤ other_deductions)
    (_h12 : 0 ≤ custom_basic) :
    0 ≤ (calculate_tax_detailed age salary business_income rent_paid inv_80c med_80d home_loan
        nps edu_loan donations savings_int other_deductions custom_basic).new.net ∧
      0 ≤ (calculate_tax_detailed age salary business_income rent_paid inv_80c med_80d home_loan
        nps edu_loan donations savings_int other_deductions custom_basic).old.net ∧
      0 ≤ (calculate_tax_detailed age salary business_income rent_paid inv_80c med_80d home_loan
        nps edu_loan donations savings_int other_deductions custom_basic).old.deductions.hra ∧
      0 ≤ (calculate_tax_detailed age salary business_income rent_paid inv_80c med_80d home_loan
        nps edu_loan donations savings_int other_deductions custom_basic).new.breakdown.base ∧
      0 ≤ (calculate_tax_detailed age salary business_income rent_paid inv_80c med_80d home_loan
        nps edu_loan donations savings_int other_deductions
        custom_basic).new.breakdown.surcharge ∧
      0 ≤ (calculate_tax_detailed age salary business_income rent_paid inv_80c med_80d home_loan
        nps edu_loan donations savings_int other_deductions custom_basic).new.breakdown.cess ∧
      0 ≤ (calculate_tax_detailed age salary business_income rent_paid inv_80c med_80d home_loan
        nps edu_loan donations savings_int other_deductions custom_basic).new.breakdown.total ∧
      0 ≤ (calculate_tax_detailed age salary business_income rent_paid inv_80c med_80d home_loan
        nps edu_loan donations savings_int other_deductions custom_basic).old.breakdown.base ∧
      0 ≤ (calculate_tax_detailed age salary business_income rent_paid inv_80c med_80d home_loan
        nps edu_loan donations savings_int other_deductions
        custom_basic).old.breakdown.surcharge ∧
      0 ≤ (calculate_tax_detailed age salary business_income rent_paid inv_80c med_80d home_loan
        nps edu_loan donations savings_int other_deductions custom_basic).old.breakdown.cess ∧
      0 ≤ (calculate_tax_detailed age salary business_income rent_paid inv_80c med_80d home_loan
        nps edu_loan donations savings_int other_deductions custom_basic).old.breakdown.total :=
  ⟨le_max_left 0 _, le_max_left 0 _, pyInt_nonneg (le_max_left 0 _),
    (breakdown_fields_nonneg _ age Regime.new).1,
    (breakdown_fields_nonneg _ age Regime.new).2.1,
    (breakdown_fields_nonneg _ age Regime.new).2.2.1,
    (breakdown_fields_nonneg _ age Regime.new).2.2.2,
    (breakdown_fields_nonneg _ age Regime.old).1,
    (breakdown_fields_nonneg _ age Regime.old).2.1,
    (breakdown_fields_nonneg _ age Regime.old).2.2.1,
    (breakdown_fields_nonneg _ age Regime.old).2.2.2⟩

/-- C8 witness: non-negativity of the new-regime total at a concrete input. -/
theorem engine_values_nonneg_witness :
    0 ≤ (calculate_tax_detailed 30 1000000 0 0 0 0 0 0 0 0 0 0 0).new.breakdown.total :=
  (engine_values_nonneg 30 1000000 0 0 0 0 0 0 0 0 0 0 0 (by norm_num) (by norm_num)
      (by norm_num) (by norm_num) (by norm_num) (by norm_num) (by norm_num) (by norm_num)
      (by norm_num) (by norm_num) (by norm_num) (by norm_num)).2.2.2.2.2.2.1

/-- C9: for salary 1,000,000, age 65 and every other field zero, the engine
produces old-regime net taxable income 950,000, base tax 100,000, surcharge 0,
cess 4,000 and total 104,000. -/
theorem scenario_salary_1000000_age_65 :
    (calculate_tax_detailed 65 1000000 0 0 0 0 0 0 0 0 0 0 0).old.net = 950000 ∧
      (calculate_tax_detailed 65 1000000 0 0 0 0 0 0 0 0 0 0 0).old.breakdown.base = 100000 ∧
      (calculate_tax_detailed 65 1000000 0 0 0 0 0 0 0 0 0 0 0).old.breakdown.surcharge = 0 ∧
      (calculate_tax_detailed 65 1000000 0 0 0 0 0 0 0 0 0 0 0).old.breakdown.cess = 4000 ∧
      (calculate_tax_detailed 65 1000000 0 0 0 0 0 0 0 0 0 0 0).old.breakdown.total = 104000 := by
  have hraS : calculate_hra_exemption ((1000000 : ℚ) * (50/100)) 0 true = 0 := by
    simp only [calculate_hra_exemption]
    apply pyInt_eq_of_bounds (by norm_num)
    · norm_num [min_def, max_def]
    · norm_num [min_def, max_def]
  have netS : (calculate_tax_detailed 65 1000000 0 0 0 0 0 0 0 0 0 0 0).old.net = 950000 := by
    show max 0 ((1000000 : ℚ) + (0 : ℚ) * (50/100) -
      ((50000 : ℚ) + ((calculate_hra_exemption
          (if (0 : ℚ) > 0 then if (0 : ℚ) < 100 then (1000000 : ℚ) * ((0 : ℚ) / 100) else (0 : ℚ)
            else (1000000 : ℚ) * (50/100))
          (if (0 : ℚ) > 0 ∧ (0 : ℚ) < (1000000 : ℚ) * (15/100) then (0 : ℚ) * 12 else (0 : ℚ))
          true : ℤ) : ℚ) +
        min (0 : ℚ) 150000 + (0 : ℚ) + min (0 : ℚ) 200000 + min (0 : ℚ) 50000 + (0 : ℚ) +
        (0 : ℚ) + min (0 : ℚ) (if (65 : ℤ) ≥ 60 then (50000 : ℚ) else 10000) + (0 : ℚ))) = 950000
    have h1 : (if (0 : ℚ) > 0 then
        if (0 : ℚ) < 100 then (1000000 : ℚ) * ((0 : ℚ) / 100) else (0 : ℚ)
        else (1000000 : ℚ) * (50/100)) = 1000000 * (50/100) := by norm_num
    have h2 : (if (0 : ℚ) > 0 ∧ (0 : ℚ) < (1000000 : ℚ) * (15/100) then (0 : ℚ) * 12
        else (0 : ℚ)) = 0 := by norm_num
    rw [h1, h2, hraS]
    norm_num [min_def, max_def]
  have bdS : (calculate_tax_detailed 65 1000000 0 0 0 0 0 0 0 0 0 0 0).old.breakdown =
      compute_tax_breakdown ((calculate_tax_detailed 65 1000000 0 0 0 0 0 0 0 0 0 0 0).old.net)
        65 Regime.old := rfl
  have taxS : slabTax Regime.old 950000 65 = 100000 := by
    norm_num [slabTax, slabTaxOld, slabStep, oldLimit]
  have surS : surchargeOf Regime.old 950000 (slabTax Regime.old 950000 65) = 0 := by
    unfold surchargeOf
    rw [if_neg (by norm_num)]
  refine ⟨netS, ?_, ?_, ?_, ?_⟩
  · rw [bdS, netS, breakdown_base, taxS]
    apply pyInt_eq_of_bounds (by norm_num) <;> norm_num
  · rw [bdS, netS, breakdown_surcharge, surS, pyInt_zero]
  · rw [bdS, netS, breakdown_cess, surS, taxS]
    apply pyInt_eq_of_bounds (by norm_num) <;> norm_num
  · rw [bdS, netS, breakdown_total, surS, taxS]
    apply pyInt_eq_of_bounds (by norm_num) <;> norm_num

/-- C10: the engine is a pure function of its thirteen arguments — two calls of
`calculate_tax_detailed` with identical arguments return identical results in
every field, with no hidden state in the embedding. -/
theorem engine_deterministic (age : ℤ)
    (salary business_income rent_paid inv_80c med_80d home_loan nps edu_loan donations
      savings_int other_deductions custom_basic : ℚ) :
    (engineCalledTwice age salary business_income rent_paid inv_80c med_80d home_loan nps
        edu_loan donations savings_int other_deductions custom_basic).1 =
      (engineCalledTwice age salary business_income rent_paid inv_80c med_80d home_loan nps
        edu_loan donations savings_int other_deductions custom_basic).2 := rfl

end TaxBuddy
